import Mathlib

/-!
Verification of the artifact acquisition pipeline in
`src/scripts/download_nlp_models.py` and of the request builder in
`src/examples/integration/python_client.py`, as a shallow embedding.

Conventions of the embedding:
* The filesystem visible to the script is a value of `FS`: the set of
  existing directories and the existing files with their sizes in bytes.
* The opaque fetch-and-convert steps of each job (the tokenizer and model
  download and save calls) are a `Provider`: a function that transforms the
  filesystem and either completes (`none`) or raises an exception carrying a
  message (`some msg`).
* Console reporting that carries outcome data (the per-artifact success flag,
  error detail, ONNX file size and vocabulary presence printed by the jobs
  and by `main`) is modelled as fields of `Outcome`; purely decorative text is
  not modelled.
* `sys.exit(1)` is modelled as an exit code of 1 in the run result; falling
  off the end of `main` is exit code 0.
-/

namespace NexsMCP

/-- A model of the filesystem: existing directories, and existing files with
their sizes in bytes. -/
structure FS where
  dirs : List String
  files : List (String × Nat)
deriving Repr, DecidableEq

/-- Whether a directory exists. -/
def FS.dirExists (fs : FS) (d : String) : Bool :=
  fs.dirs.contains d

/-- File-existence check, as in `Path(...).exists()`. -/
def FS.fileExists (fs : FS) (p : String) : Bool :=
  fs.files.any (fun f => f.1 == p)

/-- File size in bytes, as in `Path(...).stat().st_size`; `none` when the
file does not exist. -/
def FS.fileSize (fs : FS) (p : String) : Option Nat :=
  (fs.files.find? (fun f => f.1 == p)).map (fun f => f.2)

/-- Adding a directory if absent; the filesystem effect of a successful
`mkdir`. -/
def FS.ensureDir (fs : FS) (d : String) : FS :=
  if fs.dirExists d then fs else { fs with dirs := d :: fs.dirs }

/-- A model of `Path(d).mkdir(parents=..., exist_ok=...)`: raises
`FileExistsError` when the directory already exists and `exist_ok` is false,
otherwise succeeds, creating the directory if absent. The source always calls
it with `parents=True, exist_ok=True`. -/
def FS.mkdir (fs : FS) (d : String) (_parents existOk : Bool) : Except String FS :=
  if fs.dirExists d then
    if existOk then .ok fs else .error "FileExistsError"
  else
    .ok { fs with dirs := d :: fs.dirs }

/-- The provider capability bound to one artifact: the download and save
steps performed between directory creation and file verification. It
transforms the filesystem and either completes (`none`) or raises an
exception with a message (`some msg`). -/
abbrev Provider := FS → FS × Option String

/-- Static description of one artifact to acquire: the key used in the
`results` dict of `main`, the label printed by the error handler in `main`,
the source model identifier, and the output directory. -/
structure JobSpec where
  key : String
  label : String
  modelName : String
  outputDir : String
deriving Repr, DecidableEq

/-- Constants of `download_and_convert_bert_ner`. -/
def bertNerSpec : JobSpec :=
  { key := "bert_ner"
    label := "BERT NER"
    modelName := "protectai/bert-base-NER-onnx"
    outputDir := "models/bert-base-ner" }

/-- Constants of `download_and_convert_distilbert_sentiment`. -/
def distilbertSpec : JobSpec :=
  { key := "distilbert"
    label := "DistilBERT Sentiment"
    modelName := "lxyuan/distilbert-base-multilingual-cased-sentiments-student"
    outputDir := "models/distilbert-sentiment" }

/-- The recorded result of attempting one artifact: the boolean stored in the
`results` dict, together with the outcome data the script reports on the
console (error detail, size in bytes of `model.onnx`, presence of
`vocab.txt`). -/
structure Outcome where
  success : Bool
  detail : Option String
  sizeBytes : Option Nat
  vocabPresent : Option Bool
deriving Repr, DecidableEq

/-- The detail printed when the provider completed but `model.onnx` is
absent: `❌ Erro: arquivo model.onnx não foi criado`. -/
def verificationFailureMsg : String :=
  "❌ Erro: arquivo model.onnx não foi criado"

/-- The detail printed by the exception handler in `main`:
`❌ Erro ao processar {label}: {e}`. -/
def providerErrorMsg (label err : String) : String :=
  "❌ Erro ao processar " ++ label ++ ": " ++ err

/-- The body shared by `download_and_convert_bert_ner` and
`download_and_convert_distilbert_sentiment`, parametrised by the job's
constants and its provider: create the output directory
(`parents=True, exist_ok=True`), run the provider, then verify that
`model.onnx` exists under the output directory. Returns the final
filesystem, the list of provider invocations made (the job's key, recorded
at the moment the provider is entered), and either the returned outcome or
the exception that escaped the function. On verification success the outcome
records the ONNX file's size and whether `vocab.txt` exists; on verification
failure it records `success := false` with the missing-artifact detail. -/
def downloadAndConvert (p : Provider) (s : JobSpec) (fs : FS) :
    FS × List String × Except String Outcome :=
  match fs.mkdir s.outputDir true true with
  | .error e => (fs, [], .error e)
  | .ok fs1 =>
    match p fs1 with
    | (fs2, some e) => (fs2, [s.key], .error e)
    | (fs2, none) =>
      let onnxFile := s.outputDir ++ "/model.onnx"
      let vocabFile := s.outputDir ++ "/vocab.txt"
      if fs2.fileExists onnxFile then
        (fs2, [s.key],
          .ok { success := true
                detail := none
                sizeBytes := fs2.fileSize onnxFile
                vocabPresent := some (fs2.fileExists vocabFile) })
      else
        (fs2, [s.key],
          .ok { success := false
                detail := some verificationFailureMsg
                sizeBytes := none
                vocabPresent := none })

/-- One `try/except` block of `main`: run the job; if an exception escapes,
catch it, record `success := false` with the printed
`Erro ao processar {label}: {e}` detail, and continue. -/
def runArtifact (p : Provider) (s : JobSpec) (fs : FS) :
    FS × List String × Outcome :=
  match downloadAndConvert p s fs with
  | (fs2, inv, .ok o) => (fs2, inv, o)
  | (fs2, inv, .error e) =>
    (fs2, inv,
      { success := false
        detail := some (providerErrorMsg s.label e)
        sizeBytes := none
        vocabPresent := none })

/-- The fixed dependency list of `check_dependencies`. -/
def requiredPackages : List String := ["torch", "transformers", "optimum"]

/-- The packages of `requiredPackages` whose import fails, in list order,
given which package names are importable in the environment. -/
def missingPackages (importable : String → Bool) : List String :=
  requiredPackages.filter (fun p => !(importable p))

/-- The single message `❌ Pacotes faltando: {', '.join(missing)}` listing
every missing package. -/
def missingMessage (missing : List String) : String :=
  "❌ Pacotes faltando: " ++ String.intercalate ", " missing

/-- A model of `check_dependencies`: `none` when every required package is
importable; otherwise `some (missing, msg)`, meaning the function printed the
one message `msg` listing all missing packages and called `sys.exit(1)`. -/
def check_dependencies (importable : String → Bool) :
    Option (List String × String) :=
  let missing := missingPackages importable
  if missing.isEmpty then none
  else some (missing, missingMessage missing)

/-- The observable result of one invocation of `main`: the process exit
code, the ordered list of provider invocations performed, the `results`
dict in insertion order enriched with each job's reported outcome data, the
value of `all(results.values())`, the dependency-gate failure messages
printed (empty when the gate passed), and the final filesystem. -/
structure RunOutcome where
  exitCode : Nat
  invoked : List String
  report : List (String × Outcome)
  overall : Bool
  gateMessages : List String
  finalFs : FS
deriving Repr

/-- A model of `main`: check dependencies (exiting with code 1 before any
directory creation or job when some are missing), then run the BERT NER job
and the DistilBERT Sentiment job in order, each under its own
`try/except`, collect the `results` dict in insertion order, and exit 0
when `all(results.values())` holds, else 1. -/
def mainRun (importable : String → Bool) (pBert pDistil : Provider)
    (fs : FS) : RunOutcome :=
  match check_dependencies importable with
  | some (_missing, msg) =>
    { exitCode := 1
      invoked := []
      report := []
      overall := false
      gateMessages := [msg]
      finalFs := fs }
  | none =>
    let (fs1, inv1, o1) := runArtifact pBert bertNerSpec fs
    let (fs2, inv2, o2) := runArtifact pDistil distilbertSpec fs1
    let report := [("bert_ner", o1), ("distilbert", o2)]
    let overall := o1.success && o2.success
    { exitCode := if overall then 0 else 1
      invoked := inv1 ++ inv2
      report := report
      overall := overall
      gateMessages := []
      finalFs := fs2 }

/-! Embedding of the request builder in
`src/examples/integration/python_client.py`. -/

/-- The mutable state of `NexsMCPClient`: the `request_id` counter
(initially 0). -/
structure Client where
  request_id : Nat
deriving Repr, DecidableEq

/-- A built JSON-RPC request: the `jsonrpc` field, the optional `id` field
(`none` when the key was deleted), the `method`, and the `params`
dictionary. -/
structure Request where
  jsonrpc : String
  id : Option Nat
  method : String
  params : List (String × String)
deriving Repr, DecidableEq

/-- A model of `_next_id`: increment `request_id` and return it. -/
def nextId (c : Client) : Client × Nat :=
  let c1 : Client := { request_id := c.request_id + 1 }
  (c1, c1.request_id)

/-- Whether the method name starts with `notifications/`, modelled as a
prefix test on the character list (the source uses
`method.startswith("notifications/")`). -/
def isNotificationMethod (m : String) : Bool :=
  "notifications/".data.isPrefixOf m.data

/-- A model of `_send_request`: build the request dict with the next id and
`params or {}`, then delete the `id` key when the method starts with
`notifications/`. -/
def sendRequest (c : Client) (method : String)
    (params : Option (List (String × String))) : Client × Request :=
  let (c1, i) := nextId c
  let request : Request :=
    { jsonrpc := "2.0", id := some i, method := method
      params := params.getD [] }
  if isNotificationMethod method then
    (c1, { request with id := none })
  else
    (c1, request)

/-- Building one request per method in order, threading the client state, as
a sequence of `_send_request` calls does. -/
def buildRequests (c : Client) (ms : List String) : Client × List Request :=
  match ms with
  | [] => (c, [])
  | m :: rest =>
    ((buildRequests (sendRequest c m none).1 rest).1,
      (sendRequest c m none).2 :: (buildRequests (sendRequest c m none).1 rest).2)

/-! Concrete environments, filesystems and providers used to evaluate the
pipeline on explicit inputs. -/

/-- An environment in which every package import succeeds. -/
def allAvailable : String → Bool := fun _ => true

/-- An environment in which no package import succeeds. -/
def noPackages : String → Bool := fun _ => false

/-- The empty filesystem. -/
def emptyFS : FS := { dirs := [], files := [] }

/-- A provider that raises with the given message, writing nothing. -/
def raisingProvider (msg : String) : Provider := fun g => (g, some msg)

/-- A provider that completes without writing anything. -/
def silentProvider : Provider := fun g => (g, none)

/-- A provider that writes one file of the given size at the given path and
then completes. -/
def writingProvider (path : String) (size : Nat) : Provider :=
  fun g => ({ g with files := (path, size) :: g.files }, none)

end NexsMCP

namespace NexsMCP

/-! Helper lemmas. -/

/-- With `exist_ok = true`, `mkdir` always succeeds and its effect is
`ensureDir`. -/
theorem FS.mkdir_existOk (fs : FS) (d : String) (par : Bool) :
    fs.mkdir d par true = .ok (fs.ensureDir d) := by
  unfold FS.mkdir FS.ensureDir
  split <;> rfl

/-- Full characterisation of one `try/except` artifact block. -/
theorem runArtifact_eq (p : Provider) (s : JobSpec) (fs : FS) :
    runArtifact p s fs =
      ((p (fs.ensureDir s.outputDir)).1, [s.key],
        match (p (fs.ensureDir s.outputDir)).2 with
        | some e =>
          { success := false, detail := some (providerErrorMsg s.label e),
            sizeBytes := none, vocabPresent := none }
        | none =>
          if (p (fs.ensureDir s.outputDir)).1.fileExists
              (s.outputDir ++ "/model.onnx") then
            { success := true, detail := none,
              sizeBytes := (p (fs.ensureDir s.outputDir)).1.fileSize
                (s.outputDir ++ "/model.onnx"),
              vocabPresent := some ((p (fs.ensureDir s.outputDir)).1.fileExists
                (s.outputDir ++ "/vocab.txt")) }
          else
            { success := false, detail := some verificationFailureMsg,
              sizeBytes := none, vocabPresent := none }) := by
  unfold runArtifact downloadAndConvert
  rw [FS.mkdir_existOk]
  rcases hp : p (fs.ensureDir s.outputDir) with ⟨fs2, err⟩
  simp only [hp]
  cases err
  · by_cases hf : fs2.fileExists (s.outputDir ++ "/model.onnx") = true <;>
      simp [hf]
  · rfl

/-- The provider-invocation log of one artifact block is exactly one entry:
the job's key. -/
theorem runArtifact_invoked (p : Provider) (s : JobSpec) (fs : FS) :
    (runArtifact p s fs).2.1 = [s.key] := by
  rw [runArtifact_eq]

/-- When nothing is missing the gate passes. -/
theorem check_dependencies_pass (importable : String → Bool)
    (h : missingPackages importable = []) :
    check_dependencies importable = none := by
  unfold check_dependencies
  rw [h]
  rfl

/-- When something is missing the gate fails with the single message listing
the whole missing list. -/
theorem check_dependencies_fail (importable : String → Bool)
    (h : missingPackages importable ≠ []) :
    check_dependencies importable =
      some (missingPackages importable,
        missingMessage (missingPackages importable)) := by
  unfold check_dependencies
  simp [h]

end NexsMCP

namespace NexsMCP

/-- After `ensureDir` the directory exists. -/
theorem FS.ensureDir_dirExists (fs : FS) (d : String) :
    (fs.ensureDir d).dirExists d = true := by
  by_cases h : d ∈ fs.dirs <;> simp [FS.ensureDir, FS.dirExists, h]

/-- Repeating `ensureDir` is idempotent. -/
theorem FS.ensureDir_idem (fs : FS) (d : String) :
    (fs.ensureDir d).ensureDir d = fs.ensureDir d := by
  by_cases h : d ∈ fs.dirs <;> simp [FS.ensureDir, FS.dirExists, h]

/-- File existence agrees with the size lookup being defined. -/
theorem FS.fileExists_eq_isSome (fs : FS) (q : String) :
    fs.fileExists q = (fs.fileSize q).isSome := by
  unfold FS.fileExists FS.fileSize
  rw [Option.isSome_map', Bool.eq_iff_iff]
  rw [show ((fs.files.find? (fun f => f.1 == q)).isSome = true) ↔
      (fs.files.find? (fun f => f.1 == q)).isSome from Iff.rfl]
  rw [List.any_eq_true, List.find?_isSome]

/-- Characterisation of a run that passes the dependency gate. -/
theorem mainRun_pass (importable : String → Bool) (pBert pDistil : Provider)
    (fs : FS) (h : missingPackages importable = []) :
    mainRun importable pBert pDistil fs =
      { exitCode :=
          if (runArtifact pBert bertNerSpec fs).2.2.success &&
              (runArtifact pDistil distilbertSpec
                (runArtifact pBert bertNerSpec fs).1).2.2.success then 0 else 1
        invoked := ["bert_ner", "distilbert"]
        report :=
          [("bert_ner", (runArtifact pBert bertNerSpec fs).2.2),
            ("distilbert",
              (runArtifact pDistil distilbertSpec
                (runArtifact pBert bertNerSpec fs).1).2.2)]
        overall := (runArtifact pBert bertNerSpec fs).2.2.success &&
          (runArtifact pDistil distilbertSpec
            (runArtifact pBert bertNerSpec fs).1).2.2.success
        gateMessages := []
        finalFs := (runArtifact pDistil distilbertSpec
          (runArtifact pBert bertNerSpec fs).1).1 } := by
  unfold mainRun
  rw [check_dependencies_pass importable h]
  rcases h1 : runArtifact pBert bertNerSpec fs with ⟨fs1, inv1, o1⟩
  rcases h2 : runArtifact pDistil distilbertSpec fs1 with ⟨fs2, inv2, o2⟩
  have i1 : inv1 = ["bert_ner"] := by
    have hk := runArtifact_invoked pBert bertNerSpec fs
    rw [h1] at hk
    exact hk
  have i2 : inv2 = ["distilbert"] := by
    have hk := runArtifact_invoked pDistil distilbertSpec fs1
    rw [h2] at hk
    exact hk
  simp only [h1, h2, i1, i2]
  rfl

end NexsMCP

namespace NexsMCP

/-- C1: for a run that passes the dependency gate, if the BERT NER provider
raises an error, the error is captured at the artifact boundary (the run
still completes, producing a full two-entry report), the outcome recorded
for `bert_ner` has `success = false` and carries the captured error detail,
and the DistilBERT Sentiment provider is still invoked exactly once. -/
theorem c1_isolation (importable : String → Bool) (pBert pDistil : Provider)
    (fs : FS) (e : String)
    (hgate : missingPackages importable = [])
    (hraise : (pBert (fs.ensureDir bertNerSpec.outputDir)).2 = some e) :
    (mainRun importable pBert pDistil fs).report.length = 2 ∧
    (mainRun importable pBert pDistil fs).report.head? =
      some ("bert_ner",
        { success := false
          detail := some (providerErrorMsg "BERT NER" e)
          sizeBytes := none
          vocabPresent := none }) ∧
    (mainRun importable pBert pDistil fs).invoked.count "distilbert" = 1 ∧
    (mainRun importable pBert pDistil fs).invoked.count "bert_ner" = 1 := by
  have ho : (runArtifact pBert bertNerSpec fs).2.2 =
      { success := false
        detail := some (providerErrorMsg "BERT NER" e)
        sizeBytes := none
        vocabPresent := none } := by
    rw [runArtifact_eq, hraise]
    rfl
  rw [mainRun_pass importable pBert pDistil fs hgate]
  refine ⟨rfl, ?_, by rfl, by rfl⟩
  rw [ho]
  rfl

/-- C2: when a required package is missing, the run exits with code 1, no
provider is invoked, no outcome is recorded, the filesystem is untouched (so
no output directory has been created), and the gate emits exactly one
message, listing the whole missing set together. -/
theorem c2_fail_fast (importable : String → Bool) (pBert pDistil : Provider)
    (fs : FS) (hmiss : missingPackages importable ≠ []) :
    (mainRun importable pBert pDistil fs).exitCode = 1 ∧
    (mainRun importable pBert pDistil fs).invoked = [] ∧
    (mainRun importable pBert pDistil fs).report = [] ∧
    (mainRun importable pBert pDistil fs).finalFs = fs ∧
    (mainRun importable pBert pDistil fs).gateMessages =
      [missingMessage (missingPackages importable)] ∧
    (mainRun importable pBert pDistil fs).gateMessages.length = 1 ∧
    requiredPackages.all
      (fun q => importable q || (missingPackages importable).contains q) =
        true := by
  have hm := check_dependencies_fail importable hmiss
  unfold mainRun
  rw [hm]
  refine ⟨rfl, rfl, rfl, rfl, rfl, rfl, ?_⟩
  rw [List.all_eq_true]
  intro q hq
  by_cases hi : importable q = true
  · simp [hi]
  · have hmem : q ∈ missingPackages importable := by
      unfold missingPackages
      rw [List.mem_filter]
      exact ⟨hq, by simp [hi]⟩
    simp [hmem]

/-- C3: for a run that passes the dependency gate, whatever the providers
do, the report has exactly one outcome per configured artifact: two entries,
keyed `bert_ner` then `distilbert`, distinct, in configuration order. -/
theorem c3_completeness (importable : String → Bool) (pBert pDistil : Provider)
    (fs : FS) (hgate : missingPackages importable = []) :
    (mainRun importable pBert pDistil fs).report.length = 2 ∧
    (mainRun importable pBert pDistil fs).report.map Prod.fst =
      ["bert_ner", "distilbert"] ∧
    ((mainRun importable pBert pDistil fs).report.map Prod.fst).Nodup := by
  rw [mainRun_pass importable pBert pDistil fs hgate]
  refine ⟨rfl, rfl, ?_⟩
  simp

/-- C5: for a run that passes the dependency gate, overall success is the
conjunction of the individual outcome success flags, and the exit code is 0
iff overall success holds, otherwise 1. -/
theorem c5_aggregate (importable : String → Bool) (pBert pDistil : Provider)
    (fs : FS) (hgate : missingPackages importable = []) :
    ((mainRun importable pBert pDistil fs).overall =
      (mainRun importable pBert pDistil fs).report.all
        (fun entry => entry.2.success)) ∧
    ((mainRun importable pBert pDistil fs).exitCode = 0 ↔
      (mainRun importable pBert pDistil fs).overall = true) ∧
    ((mainRun importable pBert pDistil fs).exitCode = 0 ∨
      (mainRun importable pBert pDistil fs).exitCode = 1) := by
  rw [mainRun_pass importable pBert pDistil fs hgate]
  cases hA : (runArtifact pBert bertNerSpec fs).2.2.success <;>
    cases hB : (runArtifact pDistil distilbertSpec
      (runArtifact pBert bertNerSpec fs).1).2.2.success <;>
    simp [hA, hB]

/-- C4: when the provider completes without raising but `model.onnx` is
absent from the output directory, the recorded outcome has `success = false`
with the missing-artifact detail, and that detail differs from every
provider-error detail. -/
theorem c4_verification_gating (p : Provider) (s : JobSpec) (fs : FS)
    (label e : String)
    (hdone : (p (fs.ensureDir s.outputDir)).2 = none)
    (hmiss : (p (fs.ensureDir s.outputDir)).1.fileExists
      (s.outputDir ++ "/model.onnx") = false) :
    (runArtifact p s fs).2.2 =
      { success := false
        detail := some verificationFailureMsg
        sizeBytes := none
        vocabPresent := none } ∧
    (verificationFailureMsg == providerErrorMsg label e) = false := by
  constructor
  · rw [runArtifact_eq, hdone]
    simp [hmiss]
  · rw [beq_eq_false_iff_ne]
    intro h
    unfold verificationFailureMsg providerErrorMsg at h
    have h2 := congrArg (fun t => t.data.get? 6) h
    simp only [String.data_append, List.append_assoc] at h2
    rw [List.get?_eq_getElem?, List.get?_eq_getElem?, List.getElem?_append] at h2
    simp at h2

/-- C6: directory creation is idempotent: the `mkdir` step of a second
runner invocation for the same artifact succeeds on the filesystem a first
invocation left behind, `mkdir` with `exist_ok` never fails, and creating an
already-existing directory returns the filesystem unchanged rather than an
error. -/
theorem c6_idempotent_mkdir (q : Provider) (s : JobSpec) (fs g : FS) :
    (runArtifact q s fs).1.mkdir s.outputDir true true =
      .ok ((runArtifact q s fs).1.ensureDir s.outputDir) ∧
    g.mkdir s.outputDir true true = .ok (g.ensureDir s.outputDir) ∧
    (g.ensureDir s.outputDir).mkdir s.outputDir true true =
      .ok (g.ensureDir s.outputDir) := by
  refine ⟨FS.mkdir_existOk _ _ _, FS.mkdir_existOk _ _ _, ?_⟩
  rw [FS.mkdir_existOk, FS.ensureDir_idem]

/-- C7: when the provider completes and `model.onnx` exists with size `n`,
the recorded outcome has `success = true` and carries `n` as its size
metric. -/
theorem c7_size_metric (p : Provider) (s : JobSpec) (fs : FS) (n : Nat)
    (hdone : (p (fs.ensureDir s.outputDir)).2 = none)
    (hsize : (p (fs.ensureDir s.outputDir)).1.fileSize
      (s.outputDir ++ "/model.onnx") = some n) :
    (runArtifact p s fs).2.2.success = true ∧
    (runArtifact p s fs).2.2.sizeBytes = some n := by
  have hex : (p (fs.ensureDir s.outputDir)).1.fileExists
      (s.outputDir ++ "/model.onnx") = true := by
    rw [FS.fileExists_eq_isSome, hsize]
    rfl
  rw [runArtifact_eq, hdone]
  simp [hex, hsize]

/-- C8: when the provider completes and `model.onnx` exists, the outcome's
success flag is true regardless of `vocab.txt`; the secondary file's
presence is only reported as the auxiliary `vocabPresent` flag. -/
theorem c8_secondary_file (p : Provider) (s : JobSpec) (fs : FS)
    (hdone : (p (fs.ensureDir s.outputDir)).2 = none)
    (hex : (p (fs.ensureDir s.outputDir)).1.fileExists
      (s.outputDir ++ "/model.onnx") = true) :
    (runArtifact p s fs).2.2.success = true ∧
    (runArtifact p s fs).2.2.vocabPresent =
      some ((p (fs.ensureDir s.outputDir)).1.fileExists
        (s.outputDir ++ "/vocab.txt")) := by
  rw [runArtifact_eq, hdone]
  simp [hex]

/-- C9: verification checks only existence: when the provider completes and
a zero-byte `model.onnx` exists, the outcome's success flag is still true
and the recorded size is 0. -/
theorem c9_zero_byte (p : Provider) (s : JobSpec) (fs : FS)
    (hdone : (p (fs.ensureDir s.outputDir)).2 = none)
    (hzero : (p (fs.ensureDir s.outputDir)).1.fileSize
      (s.outputDir ++ "/model.onnx") = some 0) :
    (runArtifact p s fs).2.2.success = true ∧
    (runArtifact p s fs).2.2.sizeBytes = some 0 := by
  have hex : (p (fs.ensureDir s.outputDir)).1.fileExists
      (s.outputDir ++ "/model.onnx") = true := by
    rw [FS.fileExists_eq_isSome, hzero]
    rfl
  rw [runArtifact_eq, hdone]
  simp [hex, hzero]

end NexsMCP

namespace NexsMCP

/-- One `_send_request` call always advances the counter by exactly one. -/
theorem sendRequest_client (c : Client) (m : String)
    (ps : Option (List (String × String))) :
    (sendRequest c m ps).1 = { request_id := c.request_id + 1 } := by
  unfold sendRequest nextId
  by_cases h : isNotificationMethod m = true <;> simp [h]

/-- The id field of a built request: deleted for notification methods,
otherwise the incremented counter value. -/
theorem sendRequest_id (c : Client) (m : String)
    (ps : Option (List (String × String))) :
    (sendRequest c m ps).2.id =
      if isNotificationMethod m then none else some (c.request_id + 1) := by
  unfold sendRequest nextId
  by_cases h : isNotificationMethod m = true <;> simp [h]

/-- Every id occurring in a batch built from counter state `c` exceeds
`c.request_id`. -/
theorem buildRequests_id_gt (ms : List String) (c : Client) :
    ∀ i ∈ (buildRequests c ms).2.filterMap Request.id, c.request_id < i := by
  induction ms generalizing c with
  | nil =>
    intro i hi
    simp [buildRequests] at hi
  | cons m rest ih =>
    intro i hi
    rw [show (buildRequests c (m :: rest)).2 =
      (sendRequest c m none).2 ::
        (buildRequests (sendRequest c m none).1 rest).2 from rfl] at hi
    rw [List.filterMap_cons] at hi
    rw [sendRequest_id] at hi
    have hc1 : (sendRequest c m none).1.request_id = c.request_id + 1 := by
      rw [sendRequest_client]
    by_cases h : isNotificationMethod m = true
    · rw [if_pos h] at hi
      have hgt := ih (sendRequest c m none).1 i hi
      rw [hc1] at hgt
      omega
    · rw [if_neg h] at hi
      rcases List.mem_cons.mp hi with h1 | h2
      · omega
      · have hgt := ih (sendRequest c m none).1 i h2
        rw [hc1] at hgt
        omega

/-- The ids of a built batch are strictly increasing in build order. -/
theorem buildRequests_pairwise (ms : List String) (c : Client) :
    ((buildRequests c ms).2.filterMap Request.id).Pairwise (fun a b => a < b) := by
  induction ms generalizing c with
  | nil => simp [buildRequests]
  | cons m rest ih =>
    rw [show (buildRequests c (m :: rest)).2 =
      (sendRequest c m none).2 ::
        (buildRequests (sendRequest c m none).1 rest).2 from rfl]
    rw [List.filterMap_cons]
    rw [sendRequest_id]
    have hc1 : (sendRequest c m none).1.request_id = c.request_id + 1 := by
      rw [sendRequest_client]
    by_cases h : isNotificationMethod m = true
    · rw [if_pos h]
      exact ih (sendRequest c m none).1
    · rw [if_neg h]
      refine List.Pairwise.cons ?_ (ih (sendRequest c m none).1)
      intro b hb
      have hgt := buildRequests_id_gt rest (sendRequest c m none).1 b hb
      rw [hc1] at hgt
      omega

/-- C10: every `_send_request` call increments the request-id counter by
exactly one, even for `notifications/` methods; a built notification request
has no id, a non-notification request has the incremented counter as its
id, and across any sequence of `_send_request` calls the ids present in the
built requests are strictly increasing in build order. -/
theorem c10_request_ids (c : Client) (m : String) (ms : List String) :
    ((sendRequest c m none).1.request_id = c.request_id + 1) ∧
    (isNotificationMethod m = true → (sendRequest c m none).2.id = none) ∧
    (isNotificationMethod m = false →
      (sendRequest c m none).2.id = some (c.request_id + 1)) ∧
    ((buildRequests c ms).2.filterMap Request.id).Pairwise
      (fun a b => a < b) := by
  refine ⟨?_, ?_, ?_, buildRequests_pairwise ms c⟩
  · rw [sendRequest_client c m none]
  · intro h
    rw [sendRequest_id, if_pos h]
  · intro h
    rw [sendRequest_id, if_neg (by simp [h])]

end NexsMCP

namespace NexsMCP

/-- Witness for `c1_isolation`: a concrete run in which the BERT NER
provider raises `network timeout`. -/
theorem c1_isolation_witness :
    missingPackages allAvailable = [] ∧
    (raisingProvider "network timeout"
      (emptyFS.ensureDir bertNerSpec.outputDir)).2 = some "network timeout" ∧
    ((mainRun allAvailable (raisingProvider "network timeout") silentProvider
        emptyFS).report.length = 2 ∧
      (mainRun allAvailable (raisingProvider "network timeout") silentProvider
        emptyFS).report.head? =
        some ("bert_ner",
          { success := false
            detail := some (providerErrorMsg "BERT NER" "network timeout")
            sizeBytes := none
            vocabPresent := none }) ∧
      (mainRun allAvailable (raisingProvider "network timeout") silentProvider
        emptyFS).invoked.count "distilbert" = 1 ∧
      (mainRun allAvailable (raisingProvider "network timeout") silentProvider
        emptyFS).invoked.count "bert_ner" = 1) :=
  ⟨rfl, rfl,
    c1_isolation allAvailable (raisingProvider "network timeout")
      silentProvider emptyFS "network timeout" rfl rfl⟩

/-- Witness for `c2_fail_fast`: a concrete run in which no package is
importable. -/
theorem c2_fail_fast_witness :
    missingPackages noPackages = ["torch", "transformers", "optimum"] ∧
    ((mainRun noPackages silentProvider silentProvider emptyFS).exitCode = 1 ∧
      (mainRun noPackages silentProvider silentProvider emptyFS).invoked = [] ∧
      (mainRun noPackages silentProvider silentProvider emptyFS).report = [] ∧
      (mainRun noPackages silentProvider silentProvider emptyFS).finalFs =
        emptyFS ∧
      (mainRun noPackages silentProvider silentProvider
        emptyFS).gateMessages =
          [missingMessage (missingPackages noPackages)] ∧
      (mainRun noPackages silentProvider silentProvider
        emptyFS).gateMessages.length = 1 ∧
      requiredPackages.all
        (fun q => noPackages q || (missingPackages noPackages).contains q) =
          true) :=
  ⟨rfl,
    c2_fail_fast noPackages silentProvider silentProvider emptyFS
      (by decide)⟩

/-- Witness for `c3_completeness`: a concrete run past the gate. -/
theorem c3_completeness_witness :
    missingPackages allAvailable = [] ∧
    ((mainRun allAvailable silentProvider silentProvider
        emptyFS).report.length = 2 ∧
      (mainRun allAvailable silentProvider silentProvider
        emptyFS).report.map Prod.fst = ["bert_ner", "distilbert"] ∧
      ((mainRun allAvailable silentProvider silentProvider
        emptyFS).report.map Prod.fst).Nodup) :=
  ⟨rfl, c3_completeness allAvailable silentProvider silentProvider emptyFS rfl⟩

/-- Witness for `c5_aggregate`: a concrete run past the gate. -/
theorem c5_aggregate_witness :
    missingPackages allAvailable = [] ∧
    (((mainRun allAvailable silentProvider silentProvider emptyFS).overall =
      (mainRun allAvailable silentProvider silentProvider emptyFS).report.all
        (fun entry => entry.2.success)) ∧
      ((mainRun allAvailable silentProvider silentProvider
          emptyFS).exitCode = 0 ↔
        (mainRun allAvailable silentProvider silentProvider
          emptyFS).overall = true) ∧
      ((mainRun allAvailable silentProvider silentProvider
          emptyFS).exitCode = 0 ∨
        (mainRun allAvailable silentProvider silentProvider
          emptyFS).exitCode = 1)) :=
  ⟨rfl, c5_aggregate allAvailable silentProvider silentProvider emptyFS rfl⟩

/-- Witness for `c4_verification_gating`: a provider that completes without
writing `model.onnx`. -/
theorem c4_verification_gating_witness :
    (silentProvider (emptyFS.ensureDir bertNerSpec.outputDir)).2 = none ∧
    (silentProvider (emptyFS.ensureDir bertNerSpec.outputDir)).1.fileExists
      (bertNerSpec.outputDir ++ "/model.onnx") = false ∧
    ((runArtifact silentProvider bertNerSpec emptyFS).2.2 =
      { success := false
        detail := some verificationFailureMsg
        sizeBytes := none
        vocabPresent := none } ∧
      (verificationFailureMsg ==
        providerErrorMsg "BERT NER" "network timeout") = false) :=
  ⟨rfl, rfl,
    c4_verification_gating silentProvider bertNerSpec emptyFS
      "BERT NER" "network timeout" rfl rfl⟩

/-- Witness for `c7_size_metric`: a provider that writes a 1530722 byte
`model.onnx`. -/
theorem c7_size_metric_witness :
    (writingProvider "models/bert-base-ner/model.onnx" 1530722
      (emptyFS.ensureDir bertNerSpec.outputDir)).2 = none ∧
    (writingProvider "models/bert-base-ner/model.onnx" 1530722
      (emptyFS.ensureDir bertNerSpec.outputDir)).1.fileSize
      (bertNerSpec.outputDir ++ "/model.onnx") = some 1530722 ∧
    ((runArtifact (writingProvider "models/bert-base-ner/model.onnx" 1530722)
        bertNerSpec emptyFS).2.2.success = true ∧
      (runArtifact (writingProvider "models/bert-base-ner/model.onnx" 1530722)
        bertNerSpec emptyFS).2.2.sizeBytes = some 1530722) :=
  ⟨rfl, by decide,
    c7_size_metric (writingProvider "models/bert-base-ner/model.onnx" 1530722)
      bertNerSpec emptyFS 1530722 rfl (by decide)⟩

/-- Witness for `c8_secondary_file`: a provider that writes `model.onnx`
but no `vocab.txt`. -/
theorem c8_secondary_file_witness :
    (writingProvider "models/bert-base-ner/model.onnx" 2048
      (emptyFS.ensureDir bertNerSpec.outputDir)).2 = none ∧
    (writingProvider "models/bert-base-ner/model.onnx" 2048
      (emptyFS.ensureDir bertNerSpec.outputDir)).1.fileExists
      (bertNerSpec.outputDir ++ "/model.onnx") = true ∧
    ((runArtifact (writingProvider "models/bert-base-ner/model.onnx" 2048)
        bertNerSpec emptyFS).2.2.success = true ∧
      (runArtifact (writingProvider "models/bert-base-ner/model.onnx" 2048)
        bertNerSpec emptyFS).2.2.vocabPresent =
        some ((writingProvider "models/bert-base-ner/model.onnx" 2048
          (emptyFS.ensureDir bertNerSpec.outputDir)).1.fileExists
          (bertNerSpec.outputDir ++ "/vocab.txt"))) :=
  ⟨rfl, by decide,
    c8_secondary_file (writingProvider "models/bert-base-ner/model.onnx" 2048)
      bertNerSpec emptyFS rfl (by decide)⟩

/-- Witness for `c9_zero_byte`: a provider that writes a zero-byte
`model.onnx`. -/
theorem c9_zero_byte_witness :
    (writingProvider "models/bert-base-ner/model.onnx" 0
      (emptyFS.ensureDir bertNerSpec.outputDir)).2 = none ∧
    (writingProvider "models/bert-base-ner/model.onnx" 0
      (emptyFS.ensureDir bertNerSpec.outputDir)).1.fileSize
      (bertNerSpec.outputDir ++ "/model.onnx") = some 0 ∧
    ((runArtifact (writingProvider "models/bert-base-ner/model.onnx" 0)
        bertNerSpec emptyFS).2.2.success = true ∧
      (runArtifact (writingProvider "models/bert-base-ner/model.onnx" 0)
        bertNerSpec emptyFS).2.2.sizeBytes = some 0) :=
  ⟨rfl, by decide,
    c9_zero_byte (writingProvider "models/bert-base-ner/model.onnx" 0)
      bertNerSpec emptyFS rfl (by decide)⟩

/-- Witness for `c10_request_ids`: concrete methods and a concrete batch
with a notification interleaved. -/
theorem c10_request_ids_witness :
    ((sendRequest { request_id := 0 } "tools/list" none).1.request_id =
      0 + 1) ∧
    isNotificationMethod "notifications/initialized" = true ∧
    (sendRequest { request_id := 5 } "notifications/initialized"
      none).2.id = none ∧
    isNotificationMethod "tools/list" = false ∧
    (sendRequest { request_id := 0 } "tools/list" none).2.id =
      some (0 + 1) ∧
    ((buildRequests { request_id := 0 }
      ["initialize", "notifications/initialized", "tools/call",
        "tools/list"]).2.filterMap Request.id).Pairwise
      (fun a b => a < b) :=
  ⟨(c10_request_ids { request_id := 0 } "tools/list" []).1,
    by decide,
    (c10_request_ids { request_id := 5 } "notifications/initialized" []).2.1
      (by decide),
    by decide,
    (c10_request_ids { request_id := 0 } "tools/list" []).2.2.1 (by decide),
    (c10_request_ids { request_id := 0 } "tools/list"
      ["initialize", "notifications/initialized", "tools/call",
        "tools/list"]).2.2.2⟩

end NexsMCP
